import Mathlib

/-!
Verification development for the dyrectorio container orchestration core:
image reference parsing (`golang/internal/helper/image`), the stack lifecycle
runner (`golang/pkg/cli/runner.go`) and the container configuration merge
engine (`web/crux/src/domain/container-merge`, modelled from the spec and
pinned by its unit tests).

Strings coming from Go code are embedded as lists of characters (`Str`);
`splitOnChar` mirrors Go's `strings.Split` for a one-character separator and
`joinSep` mirrors `strings.Join`.
-/

/-! ## Image reference module (`image.go`) -/

abbrev Str := List Char

/-- Mirror of Go `strings.Split(s, sep)` for a single-character separator:
splits around each occurrence of `sep`; the result is never empty. -/
def splitOnChar (sep : Char) : Str → List Str
  | [] => [[]]
  | c :: cs =>
    match splitOnChar sep cs with
    | [] => [[]]
    | r :: rs => if c = sep then [] :: r :: rs else (c :: r) :: rs

/-- Modelled from the spec: `util.JoinV` (package `golang/internal/util`, not
among the sources) joins the given segments with the separator, as Go's
`strings.Join` does. -/
def joinSep (sep : Char) : List Str → Str
  | [] => []
  | [x] => x
  | x :: y :: rest => x ++ sep :: joinSep sep (y :: rest)

structure URI where
  Host : Str
  Name : Str
  Tag : Str
deriving DecidableEq, Repr

/-- The three error values of the image module: `EmptyError`,
`InvalidURIError` (no colon) and `MultiColonRegistryURIError`. -/
inductive ImageError where
  | EmptyError : ImageError
  | InvalidURIError (image : Str) : ImageError
  | MultiColonRegistryURIError : ImageError
deriving DecidableEq, Repr

/-- Embedding of `URIFromString`: empty input fails, a colon-free input
fails, more than one colon fails; with exactly one colon the part before the
colon is split on `/` into host (all but the last segment, rejoined) and
name (the last segment), and the part after the colon becomes the tag. -/
def URIFromString (imageName : Str) : Except ImageError URI :=
  if imageName = [] then .error .EmptyError
  else
    match splitOnChar ':' imageName with
    | [repo, tag] =>
      if '/' ∈ repo then
        let repoArr := splitOnChar '/' repo
        .ok { Host := joinSep '/' repoArr.dropLast, Name := repoArr.getLastD [], Tag := tag }
      else
        .ok { Host := [], Name := repo, Tag := tag }
    | [_] => .error (.InvalidURIError imageName)
    | _ => .error .MultiColonRegistryURIError

/-- Embedding of `setDefaults`: writes the default registry path into an
empty `Host` and the default tag into an empty `Tag`.  In Go this mutates the
`URI` through its pointer; here the updated value is returned. -/
def setDefaults (image : URI) : URI :=
  let image := if image.Host = [] then { image with Host := "docker.io/library".toList } else image
  if image.Tag = [] then { image with Tag := "latest".toList } else image

/-- Embedding of the pointer-receiver method `String()`: first component is
the formatted output, second component is the receiver's value after the
call (the Go method mutates the receiver via `setDefaults`). -/
def URI.String (image : URI) : Str × URI :=
  let image := setDefaults image
  (image.Host ++ '/' :: (image.Name ++ ':' :: image.Tag), image)

/-- Embedding of the pointer-receiver method `StringNoTag()`. -/
def URI.StringNoTag (image : URI) : Str × URI :=
  let image := setDefaults image
  (image.Host ++ '/' :: image.Name, image)

/-! ### Lemmas about `splitOnChar` / `joinSep` -/

theorem splitOnChar_ne_nil (sep : Char) (s : Str) : splitOnChar sep s ≠ [] := by
  induction s with
  | nil => simp [splitOnChar]
  | cons c cs ih =>
    simp only [splitOnChar]
    rcases h : splitOnChar sep cs with _ | ⟨r, rs⟩
    · simp
    · by_cases hc : c = sep <;> simp [hc]

theorem length_splitOnChar (sep : Char) (s : Str) :
    (splitOnChar sep s).length = s.count sep + 1 := by
  induction s with
  | nil => simp [splitOnChar]
  | cons c cs ih =>
    simp only [splitOnChar]
    rcases h : splitOnChar sep cs with _ | ⟨r, rs⟩
    · exact absurd h (splitOnChar_ne_nil sep cs)
    · rw [h] at ih
      by_cases hc : c = sep <;>
        simp [List.count_cons, hc] at ih ⊢ <;> omega

theorem joinSep_splitOnChar (sep : Char) (s : Str) :
    joinSep sep (splitOnChar sep s) = s := by
  induction s with
  | nil => simp [splitOnChar, joinSep]
  | cons c cs ih =>
    simp only [splitOnChar]
    rcases h : splitOnChar sep cs with _ | ⟨r, rs⟩
    · exact absurd h (splitOnChar_ne_nil sep cs)
    · rw [h] at ih
      by_cases hc : c = sep
      · subst hc
        simp [joinSep, ih]
      · dsimp only
        rw [if_neg hc]
        cases rs with
        | nil =>
          simp only [joinSep] at ih ⊢
          rw [ih]
        | cons y t =>
          simp only [joinSep] at ih ⊢
          rw [List.cons_append, ih]

theorem splitOnChar_no_sep (sep : Char) (s : Str) (h : sep ∉ s) :
    splitOnChar sep s = [s] := by
  induction s with
  | nil => simp [splitOnChar]
  | cons c cs ih =>
    have hc : ¬ c = sep := fun hcs => h (hcs ▸ List.mem_cons_self c cs)
    have hcs : sep ∉ cs := fun hm => h (List.mem_cons_of_mem c hm)
    simp only [splitOnChar, ih hcs]
    simp [hc]

theorem splitOnChar_append_sep (sep : Char) (s t : Str) (h : sep ∉ s) :
    splitOnChar sep (s ++ sep :: t) = s :: splitOnChar sep t := by
  induction s with
  | nil =>
    simp only [List.nil_append, splitOnChar]
    rcases ht : splitOnChar sep t with _ | ⟨r, rs⟩
    · exact absurd ht (splitOnChar_ne_nil sep t)
    · simp
  | cons c cs ih =>
    have hc : ¬ c = sep := fun hcs => h (hcs ▸ List.mem_cons_self c cs)
    have hcs : sep ∉ cs := fun hm => h (List.mem_cons_of_mem c hm)
    simp only [List.cons_append, splitOnChar, List.append_eq]
    rw [ih hcs]
    dsimp only
    simp [hc]

theorem dropLast_append_getLastD (l : List Str) : l ≠ [] → ∀ d, l.dropLast ++ [l.getLastD d] = l := by
  induction l with
  | nil => intro h; exact absurd rfl h
  | cons x xs ih =>
    intro _ d
    cases xs with
    | nil => rfl
    | cons y t =>
      have h2 := ih (by simp) x
      show x :: ((y :: t).dropLast ++ [(y :: t).getLastD x]) = x :: y :: t
      rw [h2]

theorem joinSep_append_last (sep : Char) (l : List Str) (x : Str) (h : l ≠ []) :
    joinSep sep (l ++ [x]) = joinSep sep l ++ sep :: x := by
  induction l with
  | nil => exact absurd rfl h
  | cons a as ih =>
    cases as with
    | nil => simp [joinSep]
    | cons b bs =>
      have h2 := ih (by simp)
      simp only [List.cons_append, List.append_eq, joinSep] at h2 ⊢
      rw [h2]
      simp

/-! ### Facts about `setDefaults` and the formatting methods -/

theorem setDefaults_Name (u : URI) : (setDefaults u).Name = u.Name := by
  obtain ⟨h, n, t⟩ := u
  by_cases hh : h = [] <;> by_cases ht : t = [] <;> simp [setDefaults, hh, ht]

theorem setDefaults_Tag_of_empty (u : URI) (h : u.Tag = []) :
    (setDefaults u).Tag = "latest".toList := by
  obtain ⟨hh, n, t⟩ := u
  simp only at h
  subst h
  by_cases hhe : hh = [] <;> simp [setDefaults, hhe]

theorem setDefaults_of_nonempty (u : URI) (hh : u.Host ≠ []) (ht : u.Tag ≠ []) :
    setDefaults u = u := by
  obtain ⟨h, n, t⟩ := u
  simp only at hh ht
  simp [setDefaults, hh, ht]

theorem URI_String_fst (u : URI) :
    (URI.String u).1 =
      (setDefaults u).Host ++ '/' :: ((setDefaults u).Name ++ ':' :: (setDefaults u).Tag) := rfl

theorem URI_StringNoTag_fst (u : URI) :
    (URI.StringNoTag u).1 = (setDefaults u).Host ++ '/' :: (setDefaults u).Name := rfl

/-! ### Claim theorems for the image module -/

/-- C7: `URIFromString` fails exactly on the three malformed shapes — the
empty string gives the empty-reference error, a colon-free input gives the
missing-tag error, more than one colon gives the multi-colon error, and
every input with exactly one colon parses without error. -/
theorem parse_error_taxonomy :
    URIFromString [] = .error .EmptyError ∧
    (∀ s : Str, s ≠ [] → ':' ∉ s → URIFromString s = .error (.InvalidURIError s)) ∧
    (∀ s : Str, 2 ≤ s.count ':' → URIFromString s = .error .MultiColonRegistryURIError) ∧
    (∀ s : Str, s.count ':' = 1 → ∃ u, URIFromString s = .ok u) := by
  refine ⟨rfl, ?_, ?_, ?_⟩
  · intro s hne hmem
    simp [URIFromString, hne, splitOnChar_no_sep ':' s hmem]
  · intro s h2
    have hne : s ≠ [] := by
      intro hnil; subst hnil; simp at h2
    have hlen := length_splitOnChar ':' s
    rcases hsp : splitOnChar ':' s with _ | ⟨a, _ | ⟨b, _ | ⟨c, rest⟩⟩⟩
    · exact absurd hsp (splitOnChar_ne_nil ':' s)
    · rw [hsp] at hlen; simp at hlen; omega
    · rw [hsp] at hlen; simp at hlen; omega
    · simp [URIFromString, hne, hsp]
  · intro s h1
    have hne : s ≠ [] := by
      intro hnil; subst hnil; simp at h1
    have hlen := length_splitOnChar ':' s
    rcases hsp : splitOnChar ':' s with _ | ⟨a, _ | ⟨b, _ | ⟨c, rest⟩⟩⟩
    · exact absurd hsp (splitOnChar_ne_nil ':' s)
    · rw [hsp] at hlen; simp at hlen; omega
    · simp only [URIFromString, if_neg hne, hsp]
      split_ifs <;> exact ⟨_, rfl⟩
    · rw [hsp] at hlen; simp at hlen; omega

theorem parse_error_taxonomy_witness :
    URIFromString ['n'] = .error (.InvalidURIError ['n']) ∧
    URIFromString ['a', ':', 'b', ':', 'c'] = .error .MultiColonRegistryURIError ∧
    (∃ u, URIFromString ['a', ':', 'b'] = .ok u) :=
  ⟨parse_error_taxonomy.2.1 ['n'] (by decide) (by decide),
   parse_error_taxonomy.2.2.1 ['a', ':', 'b', ':', 'c'] (by decide),
   parse_error_taxonomy.2.2.2 ['a', ':', 'b'] (by decide)⟩

/-- C8: for a valid `repo/name:tag` shape — the repository part contains a
path separator, neither part contains a colon, the tag, the host path and
the final segment are non-empty — parsing then formatting with tag gives
back the input, and formatting without tag gives back the input without its
`:tag` suffix. -/
theorem parse_format_roundtrip (repo tag : Str)
    (hslash : '/' ∈ repo) (hrc : ':' ∉ repo) (htc : ':' ∉ tag) (htne : tag ≠ [])
    (hhost : joinSep '/' (splitOnChar '/' repo).dropLast ≠ [])
    (_hname : (splitOnChar '/' repo).getLastD [] ≠ []) :
    ∃ u, URIFromString (repo ++ ':' :: tag) = .ok u ∧
      (URI.String u).1 = repo ++ ':' :: tag ∧
      (URI.StringNoTag u).1 = repo := by
  have hne : repo ++ ':' :: tag ≠ [] := by simp
  have hsp : splitOnChar ':' (repo ++ ':' :: tag) = [repo, tag] := by
    rw [splitOnChar_append_sep ':' repo tag hrc, splitOnChar_no_sep ':' tag htc]
  refine ⟨⟨joinSep '/' (splitOnChar '/' repo).dropLast,
           (splitOnChar '/' repo).getLastD [], tag⟩, ?_, ?_, ?_⟩
  · simp [URIFromString, hne, hsp, hslash]
  · have hdef := setDefaults_of_nonempty
      ⟨joinSep '/' (splitOnChar '/' repo).dropLast, (splitOnChar '/' repo).getLastD [], tag⟩
      hhost htne
    rw [URI_String_fst, hdef]
    have hdl : (splitOnChar '/' repo).dropLast ≠ [] := by
      have hcnt : 0 < repo.count '/' := List.count_pos_iff.mpr hslash
      have hlen := length_splitOnChar '/' repo
      have : 0 < (splitOnChar '/' repo).dropLast.length := by
        rw [List.length_dropLast]; omega
      exact List.ne_nil_of_length_pos this
    have hjoin : joinSep '/' (splitOnChar '/' repo).dropLast ++
        '/' :: (splitOnChar '/' repo).getLastD [] = repo := by
      rw [← joinSep_append_last '/' _ _ hdl,
          dropLast_append_getLastD _ (splitOnChar_ne_nil '/' repo) [],
          joinSep_splitOnChar]
    show _ ++ '/' :: (_ ++ ':' :: tag) = repo ++ ':' :: tag
    conv_rhs => rw [← hjoin]
    simp
  · have hdef := setDefaults_of_nonempty
      ⟨joinSep '/' (splitOnChar '/' repo).dropLast, (splitOnChar '/' repo).getLastD [], tag⟩
      hhost htne
    rw [URI_StringNoTag_fst, hdef]
    have hdl : (splitOnChar '/' repo).dropLast ≠ [] := by
      have hcnt : 0 < repo.count '/' := List.count_pos_iff.mpr hslash
      have hlen := length_splitOnChar '/' repo
      have : 0 < (splitOnChar '/' repo).dropLast.length := by
        rw [List.length_dropLast]; omega
      exact List.ne_nil_of_length_pos this
    rw [← joinSep_append_last '/' _ _ hdl,
        dropLast_append_getLastD _ (splitOnChar_ne_nil '/' repo) [],
        joinSep_splitOnChar]

theorem parse_format_roundtrip_witness :
    ∃ u, URIFromString ['a', '/', 'b', ':', 'c'] = .ok u ∧
      (URI.String u).1 = ['a', '/', 'b', ':', 'c'] ∧
      (URI.StringNoTag u).1 = ['a', '/', 'b'] :=
  parse_format_roundtrip ['a', '/', 'b'] ['c'] (by decide) (by decide) (by decide)
    (by decide) (by decide) (by decide)

/-- C9 counterexample: parsing `"n:"` stores an empty host, and calling
`String()` changes the stored `Host` field of the receiver — formatting does
mutate the stored optional fields, contradicting the view-only claim. -/
theorem setDefaults_mutation_counterexample :
    URIFromString ['n', ':'] = .ok ⟨[], ['n'], []⟩ ∧
    ((URI.String ⟨[], ['n'], []⟩).2).Host ≠ ([] : Str) := by
  constructor
  · rfl
  · decide

/-- C9 amended: the formatting operations substitute the canonical defaults
`docker.io/library` / `latest` for an empty host/tag and write them back
into the stored reference (the receiver is mutated to `setDefaults u`);
non-empty host and tag fields are kept unchanged, and the name is never
touched. -/
theorem format_defaulting_writes_back (u : URI) :
    (URI.String u).2 = setDefaults u ∧
    (URI.StringNoTag u).2 = setDefaults u ∧
    (setDefaults u).Name = u.Name ∧
    (u.Host = [] → (setDefaults u).Host = "docker.io/library".toList) ∧
    (u.Host ≠ [] → (setDefaults u).Host = u.Host) ∧
    (u.Tag = [] → (setDefaults u).Tag = "latest".toList) ∧
    (u.Tag ≠ [] → (setDefaults u).Tag = u.Tag) ∧
    (URI.String u).1 =
      (setDefaults u).Host ++ '/' :: ((setDefaults u).Name ++ ':' :: (setDefaults u).Tag) ∧
    (URI.StringNoTag u).1 = (setDefaults u).Host ++ '/' :: (setDefaults u).Name := by
  obtain ⟨h, n, t⟩ := u
  by_cases hh : h = [] <;> by_cases ht : t = [] <;>
    simp [URI.String, URI.StringNoTag, setDefaults, hh, ht]

theorem format_defaulting_writes_back_witness :
    (setDefaults ⟨[], ['n'], ['t']⟩).Host = "docker.io/library".toList ∧
    (setDefaults ⟨[], ['n'], ['t']⟩).Tag = ['t'] :=
  ⟨(format_defaulting_writes_back ⟨[], ['n'], ['t']⟩).2.2.2.1 rfl,
   (format_defaulting_writes_back ⟨[], ['n'], ['t']⟩).2.2.2.2.2.2.1 (by decide)⟩

/-- C10: a non-empty colon-free name (possibly host-qualified) followed by a
single trailing colon parses successfully — the colon is taken as the tag
separator — with the empty string stored as the tag, and `String()` then
renders the default tag `latest`. -/
theorem trailing_colon_empty_tag (s : Str) (_hne : s ≠ []) (hmem : ':' ∉ s) :
    ∃ u, URIFromString (s ++ [':']) = .ok u ∧ u.Tag = [] ∧
      (URI.String u).1 =
        (setDefaults u).Host ++ '/' :: (u.Name ++ ':' :: "latest".toList) := by
  have hne2 : s ++ [':'] ≠ [] := by simp
  have hsp : splitOnChar ':' (s ++ [':']) = [s, []] := by
    have h0 := splitOnChar_append_sep ':' s [] hmem
    simpa [splitOnChar] using h0
  by_cases hs : '/' ∈ s
  · refine ⟨⟨joinSep '/' (splitOnChar '/' s).dropLast, (splitOnChar '/' s).getLastD [], []⟩,
      ?_, rfl, ?_⟩
    · simp [URIFromString, hne2, hsp, hs]
    · rw [URI_String_fst, setDefaults_Name, setDefaults_Tag_of_empty _ rfl]
  · refine ⟨⟨[], s, []⟩, ?_, rfl, ?_⟩
    · simp [URIFromString, hne2, hsp, hs]
    · rw [URI_String_fst, setDefaults_Name, setDefaults_Tag_of_empty _ rfl]

theorem trailing_colon_empty_tag_witness :
    ∃ u, URIFromString ['n', ':'] = .ok u ∧ u.Tag = [] ∧
      (URI.String u).1 =
        (setDefaults u).Host ++ '/' :: (u.Name ++ ':' :: "latest".toList) :=
  trailing_colon_empty_tag ['n'] (by decide) (by decide)

/-! ## Stack lifecycle runner (`pkg/cli/runner.go`) -/

/-- The managed containers of the dyrectorio stack. -/
inductive Svc where
  | Traefik
  | Crux
  | CruxMigrate
  | CruxUI
  | Kratos
  | KratosMigrate
  | CruxPostgres
  | KratosPostgres
  | MailSlurper
deriving DecidableEq, Repr

/-- Observable runtime operations issued by `StartContainers` /
`StopContainers` against the container runtime. -/
inductive Ev where
  | create (s : Svc)
  | start (s : Svc)
  | startWaitUntilExit (s : Svc)
  | traefikConfiguration
  | query (s : Svc)
  | stop (s : Svc)
  | remove (s : Svc)
deriving DecidableEq, Repr

/-- The runtime's behavior for one `up` run: whether each
`Create().Start()` call errors, the exit status each one-shot migration job
reports, and the `Disabled` settings flags for Crux and CruxUI. -/
structure RuntimeEnv where
  createStartFails : Svc → Bool
  exitCode : Svc → Nat
  cruxDisabled : Bool
  cruxUIDisabled : Bool

/-- Tail of `StartContainers` after the optional CruxUI block: MailSlurper. -/
def startMailSlurper (t : List Ev) (env : RuntimeEnv) : List Ev × Bool :=
  (t ++ [.create .MailSlurper, .start .MailSlurper], !env.createStartFails .MailSlurper)

/-- Tail of `StartContainers` from the optional CruxUI block on. -/
def startCruxUIAndRest (t : List Ev) (env : RuntimeEnv) : List Ev × Bool :=
  if env.cruxUIDisabled then startMailSlurper t env
  else
    let t := t ++ [.create .CruxUI, .start .CruxUI]
    if env.createStartFails .CruxUI then (t, false) else startMailSlurper t env

/-- Tail of `StartContainers` from the optional Crux block on.  Modelled
from the spec for the builder call `Create().StartWaitUntilExit()`: a
non-zero exit status of the blocking migration job surfaces as an error
(§4.3 of the spec; the container-builder package is not among the
sources), which `StartContainers` treats as fatal. -/
def startCruxAndRest (t : List Ev) (env : RuntimeEnv) : List Ev × Bool :=
  if env.cruxDisabled then startCruxUIAndRest t env
  else
    let t := t ++ [.create .CruxMigrate, .startWaitUntilExit .CruxMigrate]
    if env.createStartFails .CruxMigrate ∨ env.exitCode .CruxMigrate ≠ 0 then (t, false)
    else
      let t := t ++ [.create .Crux, .start .Crux]
      if env.createStartFails .Crux then (t, false) else startCruxUIAndRest t env

/-- Embedding of `StartContainers`: the trace of runtime operations issued
during one `up` run, and whether the run completed (`false` means a
`log.Fatal` abort at the first failing step).  The order is the order of
the Go function: Traefik, its post-start configuration, CruxPostgres,
KratosPostgres, the blocking KratosMigrate job, Kratos, then (unless
disabled) the blocking CruxMigrate job and Crux, then (unless disabled)
CruxUI, then MailSlurper. -/
def StartContainers (env : RuntimeEnv) : List Ev × Bool :=
  let t : List Ev := [.create .Traefik, .start .Traefik]
  if env.createStartFails .Traefik then (t, false) else
  let t := t ++ [.traefikConfiguration]
  let t := t ++ [.create .CruxPostgres, .start .CruxPostgres]
  if env.createStartFails .CruxPostgres then (t, false) else
  let t := t ++ [.create .KratosPostgres, .start .KratosPostgres]
  if env.createStartFails .KratosPostgres then (t, false) else
  let t := t ++ [.create .KratosMigrate, .startWaitUntilExit .KratosMigrate]
  if env.createStartFails .KratosMigrate ∨ env.exitCode .KratosMigrate ≠ 0 then (t, false) else
  let t := t ++ [.create .Kratos, .start .Kratos]
  if env.createStartFails .Kratos then (t, false) else
  startCruxAndRest t env

/-- One teardown block of `StopContainers`: look the name up
(`GetContainerID`), and only when an ID came back stop and then remove the
container (`CleanupContainer`). -/
def cleanupBlock (present : Svc → Bool) (s : Svc) : List Ev :=
  if present s then [.query s, .stop s, .remove s] else [.query s]

/-- Embedding of `StopContainers`: for each managed name, in the order of
the Go function (MailSlurper, CruxUI, Crux, CruxMigrate, KratosMigrate,
Kratos, CruxPostgres, KratosPostgres, Traefik, with the disabled blocks
skipped), resolve the name and stop-then-remove when present.  `present`
is the runtime state: whether `GetContainerID` returns a non-empty ID for
the container's (unique) name. -/
def StopContainers (cruxDisabled cruxUIDisabled : Bool) (present : Svc → Bool) : List Ev :=
  cleanupBlock present .MailSlurper
  ++ (if cruxUIDisabled then [] else cleanupBlock present .CruxUI)
  ++ (if cruxDisabled then [] else cleanupBlock present .Crux ++ cleanupBlock present .CruxMigrate)
  ++ cleanupBlock present .KratosMigrate
  ++ cleanupBlock present .Kratos
  ++ cleanupBlock present .CruxPostgres
  ++ cleanupBlock present .KratosPostgres
  ++ cleanupBlock present .Traefik

/-- An environment in which every step succeeds, used to read off the
creation order of an `up` run. -/
def allOkEnv (cruxDisabled cruxUIDisabled : Bool) : RuntimeEnv :=
  ⟨fun _ => false, fun _ => 0, cruxDisabled, cruxUIDisabled⟩

/-- The sequence of services created by a fully successful `up` run. -/
def upCreateNames (cruxDisabled cruxUIDisabled : Bool) : List Svc :=
  (StartContainers (allOkEnv cruxDisabled cruxUIDisabled)).1.filterMap fun e =>
    match e with
    | .create s => some s
    | _ => none

/-- The sequence of names the `down` run processes (looks up), read off the
`StopContainers` trace. -/
def stopQueryNames (cruxDisabled cruxUIDisabled : Bool) (present : Svc → Bool) : List Svc :=
  (StopContainers cruxDisabled cruxUIDisabled present).filterMap fun e =>
    match e with
    | .query s => some s
    | _ => none

/-- Swap the first adjacent occurrence of the pair `a, b` into `b, a`. -/
def swapAdj (a b : Svc) : List Svc → List Svc
  | [] => []
  | [x] => [x]
  | x :: y :: rest =>
    if x = a ∧ y = b then b :: a :: swapAdj a b rest
    else x :: swapAdj a b (y :: rest)

/-- The deviation of the `down` order from the exact reverse of the `up`
order: in the reversed creation order the pairs `Kratos, KratosMigrate` and
`KratosPostgres, CruxPostgres` appear swapped back into creation order. -/
def downOrderFromUp (l : List Svc) : List Svc :=
  swapAdj .Kratos .KratosMigrate (swapAdj .KratosPostgres .CruxPostgres l)

theorem stopQueryNames_eq (c u : Bool) (present : Svc → Bool) :
    stopQueryNames c u present =
      [.MailSlurper] ++ (if u then [] else [.CruxUI])
      ++ (if c then [] else [.Crux, .CruxMigrate])
      ++ [.KratosMigrate, .Kratos, .CruxPostgres, .KratosPostgres, .Traefik] := by
  have hq : ∀ s : Svc, (cleanupBlock present s).filterMap
      (fun e => match e with | .query s => some s | _ => none) = [s] := by
    intro s
    by_cases h : present s <;> simp [cleanupBlock, h]
  cases c <;> cases u <;>
    simp [stopQueryNames, StopContainers, List.filterMap_append, hq]

/-- C4: when a blocking migration job reports a non-zero exit status, the
`up` run aborts and the dependent service (Kratos for KratosMigrate, Crux
for CruxMigrate) is never created nor started in that run. -/
theorem migration_gates_dependent_service (env : RuntimeEnv) :
    (Ev.startWaitUntilExit .KratosMigrate ∈ (StartContainers env).1 →
      env.exitCode .KratosMigrate ≠ 0 →
      (StartContainers env).2 = false ∧
      Ev.create .Kratos ∉ (StartContainers env).1 ∧
      Ev.start .Kratos ∉ (StartContainers env).1) ∧
    (Ev.startWaitUntilExit .CruxMigrate ∈ (StartContainers env).1 →
      env.exitCode .CruxMigrate ≠ 0 →
      (StartContainers env).2 = false ∧
      Ev.create .Crux ∉ (StartContainers env).1 ∧
      Ev.start .Crux ∉ (StartContainers env).1) := by
  constructor
  · intro _hmem hexit
    simp only [StartContainers]
    rw [if_pos (Or.inr hexit)]
    split_ifs <;> simp
  · intro hmem hexit
    simp only [StartContainers, startCruxAndRest, startCruxUIAndRest,
      startMailSlurper] at hmem ⊢
    rw [if_pos (Or.inr hexit)] at hmem ⊢
    split_ifs at hmem ⊢ <;> simp_all

/-- An environment whose KratosMigrate job exits with status 1. -/
def envKratosMigrateFails : RuntimeEnv :=
  ⟨fun _ => false, fun s => match s with | .KratosMigrate => 1 | _ => 0, false, false⟩

/-- An environment whose CruxMigrate job exits with status 1. -/
def envCruxMigrateFails : RuntimeEnv :=
  ⟨fun _ => false, fun s => match s with | .CruxMigrate => 1 | _ => 0, false, false⟩

theorem migration_gates_dependent_service_witness :
    ((StartContainers envKratosMigrateFails).2 = false ∧
      Ev.create .Kratos ∉ (StartContainers envKratosMigrateFails).1 ∧
      Ev.start .Kratos ∉ (StartContainers envKratosMigrateFails).1) ∧
    ((StartContainers envCruxMigrateFails).2 = false ∧
      Ev.create .Crux ∉ (StartContainers envCruxMigrateFails).1 ∧
      Ev.start .Crux ∉ (StartContainers envCruxMigrateFails).1) :=
  ⟨(migration_gates_dependent_service envKratosMigrateFails).1 (by decide) (by decide),
   (migration_gates_dependent_service envCruxMigrateFails).2 (by decide) (by decide)⟩

/-- C5 counterexample: with Crux and CruxUI enabled and every container
present, the sequence of names processed by `StopContainers` is not the
exact reverse of the creation sequence of `StartContainers` — the
KratosMigrate/Kratos pair and the CruxPostgres/KratosPostgres pair are
processed in creation order, not reversed. -/
theorem down_not_exact_reverse :
    stopQueryNames false false (fun _ => true) ≠ (upCreateNames false false).reverse := by
  decide

/-- C5 amended: the `down` sequence is the reverse of the `up` creation
sequence except that the `KratosPostgres, CruxPostgres` and the
`Kratos, KratosMigrate` adjacent pairs of the reversed order are swapped
back into creation order; and per managed name, `down` resolves the current
ID, skips the container when absent, and otherwise stops then removes it. -/
theorem down_order_amended (c u : Bool) (present : Svc → Bool) :
    stopQueryNames c u present = downOrderFromUp ((upCreateNames c u).reverse) ∧
    StopContainers c u present =
      ((stopQueryNames c u present).map (cleanupBlock present)).flatten := by
  constructor
  · rw [stopQueryNames_eq]
    cases c <;> cases u <;> decide
  · rw [stopQueryNames_eq]
    cases c <;> cases u <;>
      simp [StopContainers, List.flatten, List.append_assoc]

/-- A container known to the runtime, as returned by `ContainerList`. -/
structure ContainerSummary where
  name : String
  id : String
deriving DecidableEq, Repr

/-- Embedding of `GetContainerID`: `runtime` is the runtime's container
table and the filter keeps exactly the containers whose name matches the
anchored `^name$` pattern.  Zero matches logs and returns the empty ID, one
match returns its ID, more than one is the fatal `ambigous name` error
(`log.Fatal`). -/
def GetContainerID (runtime : List ContainerSummary) (name : String) : Except String String :=
  match runtime.filter (fun c => c.name = name) with
  | [] => .ok ""
  | [c] => .ok c.id
  | _ => .error "ambigous name"

/-- C6: name resolution returns the absent value (empty ID, not an error)
on zero matches, the unique ID on exactly one match, and the fatal
ambiguous-name error on more than one match. -/
theorem container_id_disambiguation (runtime : List ContainerSummary) (name : String) :
    (runtime.filter (fun c => c.name = name) = [] →
      GetContainerID runtime name = .ok "") ∧
    (∀ c, runtime.filter (fun c => c.name = name) = [c] →
      GetContainerID runtime name = .ok c.id) ∧
    (1 < (runtime.filter (fun c => c.name = name)).length →
      GetContainerID runtime name = .error "ambigous name") := by
  refine ⟨?_, ?_, ?_⟩
  · intro h
    simp [GetContainerID, h]
  · intro c h
    simp [GetContainerID, h]
  · intro h
    rcases hf : runtime.filter (fun c => c.name = name) with _ | ⟨a, _ | ⟨b, rest⟩⟩
    · rw [hf] at h; simp at h
    · rw [hf] at h; simp at h
    · simp [GetContainerID, hf]

theorem container_id_disambiguation_witness :
    GetContainerID [⟨"a", "id1"⟩, ⟨"a", "id2"⟩, ⟨"b", "id3"⟩] "c" = .ok "" ∧
    GetContainerID [⟨"a", "id1"⟩, ⟨"a", "id2"⟩, ⟨"b", "id3"⟩] "b" = .ok "id3" ∧
    GetContainerID [⟨"a", "id1"⟩, ⟨"a", "id2"⟩, ⟨"b", "id3"⟩] "a" = .error "ambigous name" :=
  ⟨(container_id_disambiguation [⟨"a", "id1"⟩, ⟨"a", "id2"⟩, ⟨"b", "id3"⟩] "c").1 (by rfl),
   (container_id_disambiguation [⟨"a", "id1"⟩, ⟨"a", "id2"⟩, ⟨"b", "id3"⟩] "b").2.1
     ⟨"b", "id3"⟩ (by rfl),
   (container_id_disambiguation [⟨"a", "id1"⟩, ⟨"a", "id2"⟩, ⟨"b", "id3"⟩] "a").2.2
     (by decide)⟩

/-! ## Container configuration merge engine (`container-merge`)

The implementation of `mergeConfigsWithConcreteConfig` is not among the
sources — only its unit tests are (`container-merge.spec.ts`).  The data
model below follows the shapes those tests construct, and the merge
functions are modelled from the spec (sections 3, 4.2 and 8): scalar and
whole-object fields are last-defined-wins with the instance layer winning
for every field it defines; labels and annotations merge independently per
resource-kind partition, a partition absent from the instance passing
through from the base; secrets are resolved per base identifier, an
instance secret with a matching identifier winning entirely and an
unmatched base secret being synthesized in the unresolved form; between
the ordered layers, identifier-keyed collections merge entry by entry,
preserving base order and appending layer-only entries. -/

structure UniqueKey where
  id : String
  key : String
deriving DecidableEq, Repr

structure UniqueKeyValue where
  id : String
  key : String
  value : String
deriving DecidableEq, Repr

/-- A secret declaration as it appears on a base layer. -/
structure SecretKey where
  id : String
  key : String
  required : Bool
deriving DecidableEq, Repr

/-- A secret as it appears on the instance and concrete layers, carrying
the resolved material. -/
structure SecretKeyValue where
  id : String
  key : String
  required : Bool
  encrypted : Bool
  value : String
  publicKey : Option String
deriving DecidableEq, Repr

structure Port where
  id : String
  internal : Nat
  external : Nat
deriving DecidableEq, Repr

structure PortRangeBound where
  «from» : Nat
  «to» : Nat
deriving DecidableEq, Repr

structure PortRange where
  id : String
  internal : PortRangeBound
  external : PortRangeBound
deriving DecidableEq, Repr

structure Volume where
  id : String
  name : String
  path : String
  «class» : String
  size : String
  type : String
deriving DecidableEq, Repr

structure InitContainerVolumeLink where
  id : String
  name : String
  path : String
deriving DecidableEq, Repr

structure InitContainer where
  id : String
  args : List UniqueKey
  command : List UniqueKey
  environment : List UniqueKeyValue
  image : String
  name : String
  useParentConfig : Bool
  volumes : List InitContainerVolumeLink
deriving DecidableEq, Repr

structure ConfigContainer where
  image : String
  keepFiles : Bool
  path : String
  volume : String
deriving DecidableEq, Repr

structure HealthCheckConfig where
  livenessProbe : String
  port : Nat
  readinessProbe : String
  startupProbe : String
deriving DecidableEq, Repr

structure Resource where
  cpu : String
  memory : String
deriving DecidableEq, Repr

structure ResourceConfig where
  limits : Resource
  requests : Resource
deriving DecidableEq, Repr

structure StorageConfig where
  bucket : String
  path : String
deriving DecidableEq, Repr

structure Routing where
  domain : String
  path : String
  stripPrefix : Bool
  uploadLimit : String
deriving DecidableEq, Repr

structure LogConfig where
  driver : String
  options : List UniqueKeyValue
deriving DecidableEq, Repr

/-- The per-resource-kind partitions of the `labels` / `annotations`
fields. -/
structure Marker where
  deployment : Option (List UniqueKeyValue)
  ingress : Option (List UniqueKeyValue)
  service : Option (List UniqueKeyValue)
deriving DecidableEq, Repr

/-- Modelled from the spec: the `metrics` field appears in the merge tests
only as `undefined`; its inner shape is not described, so it is carried as
an opaque payload merged by the scalar last-defined-wins rule. -/
structure MetricsData where
  payload : String
deriving DecidableEq, Repr

/-- Modelled from the spec: like `metrics`, the `expectedState` field is
carried as an opaque payload. -/
structure ExpectedStateData where
  payload : String
deriving DecidableEq, Repr

/-- A configuration layer (`ContainerConfigData`): every field optional,
`none` standing for an absent/undefined field. -/
structure ContainerConfigData where
  name : Option String
  capabilities : Option (List UniqueKeyValue)
  deploymentStrategy : Option String
  workingDirectory : Option String
  expose : Option String
  networkMode : Option String
  proxyHeaders : Option Bool
  restartPolicy : Option String
  tty : Option Bool
  useLoadBalancer : Option Bool
  annotations : Option Marker
  labels : Option Marker
  args : Option (List UniqueKey)
  commands : Option (List UniqueKey)
  configContainer : Option ConfigContainer
  customHeaders : Option (List UniqueKey)
  dockerLabels : Option (List UniqueKeyValue)
  environment : Option (List UniqueKeyValue)
  extraLBAnnotations : Option (List UniqueKeyValue)
  healthCheckConfig : Option HealthCheckConfig
  storageSet : Option Bool
  storageId : Option String
  storageConfig : Option StorageConfig
  routing : Option Routing
  initContainers : Option (List InitContainer)
  logConfig : Option LogConfig
  networks : Option (List UniqueKey)
  portRanges : Option (List PortRange)
  ports : Option (List Port)
  resourceConfig : Option ResourceConfig
  secrets : Option (List SecretKey)
  user : Option Int
  volumes : Option (List Volume)
  metrics : Option MetricsData
  expectedState : Option ExpectedStateData
deriving DecidableEq, Repr

/-- The instance/concrete shape (`ConcreteContainerConfigData`): the same
fields, except that secrets carry resolved material. -/
structure ConcreteContainerConfigData where
  name : Option String
  capabilities : Option (List UniqueKeyValue)
  deploymentStrategy : Option String
  workingDirectory : Option String
  expose : Option String
  networkMode : Option String
  proxyHeaders : Option Bool
  restartPolicy : Option String
  tty : Option Bool
  useLoadBalancer : Option Bool
  annotations : Option Marker
  labels : Option Marker
  args : Option (List UniqueKey)
  commands : Option (List UniqueKey)
  configContainer : Option ConfigContainer
  customHeaders : Option (List UniqueKey)
  dockerLabels : Option (List UniqueKeyValue)
  environment : Option (List UniqueKeyValue)
  extraLBAnnotations : Option (List UniqueKeyValue)
  healthCheckConfig : Option HealthCheckConfig
  storageSet : Option Bool
  storageId : Option String
  storageConfig : Option StorageConfig
  routing : Option Routing
  initContainers : Option (List InitContainer)
  logConfig : Option LogConfig
  networks : Option (List UniqueKey)
  portRanges : Option (List PortRange)
  ports : Option (List Port)
  resourceConfig : Option ResourceConfig
  secrets : Option (List SecretKeyValue)
  user : Option Int
  volumes : Option (List Volume)
  metrics : Option MetricsData
  expectedState : Option ExpectedStateData
deriving DecidableEq, Repr

/-! ### Merging the ordered layer list -/

/-- Modelled from the spec: last-defined-wins for scalar and whole-object
fields between layers. -/
def overrideScalar {α : Type} (old new : Option α) : Option α :=
  match new with
  | none => old
  | some v => some v

/-- Modelled from the spec: identifier-keyed union of two collections —
base order is preserved, an overlay entry with a matching identifier
replaces the base entry in place, and overlay-only entries are appended. -/
def unionById {α : Type} (idOf : α → String) (old new : List α) : List α :=
  old.map (fun o => ((new.find? fun n => idOf n = idOf o).getD o))
  ++ new.filter fun n => old.all fun o => ¬ idOf o = idOf n

/-- Modelled from the spec: identifier-keyed collection merge between
layers; an absent overlay keeps the base collection. -/
def overrideKeyed {α : Type} (idOf : α → String) (old new : Option (List α)) : Option (List α) :=
  match new, old with
  | none, o => o
  | some v, none => some v
  | some v, some o => some (unionById idOf o v)

/-- Modelled from the spec: label/annotation merge between layers —
independently per resource-kind partition, identifier-keyed within a
partition. -/
def layerMergeMarker (old new : Option Marker) : Option Marker :=
  match new, old with
  | none, o => o
  | some v, none => some v
  | some v, some o =>
    some { deployment := overrideKeyed (fun e => e.id) o.deployment v.deployment
         , ingress := overrideKeyed (fun e => e.id) o.ingress v.ingress
         , service := overrideKeyed (fun e => e.id) o.service v.service }

/-- Modelled from the spec: log-config merge between layers — the driver is
last-defined-wins, the options merge by identifier. -/
def layerMergeLogConfig (old new : Option LogConfig) : Option LogConfig :=
  match new, old with
  | none, o => o
  | some v, none => some v
  | some v, some o =>
    some { driver := v.driver, options := unionById (fun e => e.id) o.options v.options }

/-- Modelled from the spec: one step of the left-to-right layer fold — the
later layer `conf` overrides the accumulated `acc` field by field. -/
def mergeLayer (acc conf : ContainerConfigData) : ContainerConfigData :=
  { name := overrideScalar acc.name conf.name
  , capabilities := overrideScalar acc.capabilities conf.capabilities
  , deploymentStrategy := overrideScalar acc.deploymentStrategy conf.deploymentStrategy
  , workingDirectory := overrideScalar acc.workingDirectory conf.workingDirectory
  , expose := overrideScalar acc.expose conf.expose
  , networkMode := overrideScalar acc.networkMode conf.networkMode
  , proxyHeaders := overrideScalar acc.proxyHeaders conf.proxyHeaders
  , restartPolicy := overrideScalar acc.restartPolicy conf.restartPolicy
  , tty := overrideScalar acc.tty conf.tty
  , useLoadBalancer := overrideScalar acc.useLoadBalancer conf.useLoadBalancer
  , annotations := layerMergeMarker acc.annotations conf.annotations
  , labels := layerMergeMarker acc.labels conf.labels
  , args := overrideKeyed (fun e => e.id) acc.args conf.args
  , commands := overrideKeyed (fun e => e.id) acc.commands conf.commands
  , configContainer := overrideScalar acc.configContainer conf.configContainer
  , customHeaders := overrideKeyed (fun e => e.id) acc.customHeaders conf.customHeaders
  , dockerLabels := overrideKeyed (fun e => e.id) acc.dockerLabels conf.dockerLabels
  , environment := overrideKeyed (fun e => e.id) acc.environment conf.environment
  , extraLBAnnotations := overrideKeyed (fun e => e.id) acc.extraLBAnnotations conf.extraLBAnnotations
  , healthCheckConfig := overrideScalar acc.healthCheckConfig conf.healthCheckConfig
  , storageSet := overrideScalar acc.storageSet conf.storageSet
  , storageId := overrideScalar acc.storageId conf.storageId
  , storageConfig := overrideScalar acc.storageConfig conf.storageConfig
  , routing := overrideScalar acc.routing conf.routing
  , initContainers := overrideKeyed (fun e => e.id) acc.initContainers conf.initContainers
  , logConfig := layerMergeLogConfig acc.logConfig conf.logConfig
  , networks := overrideKeyed (fun e => e.id) acc.networks conf.networks
  , portRanges := overrideKeyed (fun e => e.id) acc.portRanges conf.portRanges
  , ports := overrideKeyed (fun e => e.id) acc.ports conf.ports
  , resourceConfig := overrideScalar acc.resourceConfig conf.resourceConfig
  , secrets := overrideKeyed (fun e => e.id) acc.secrets conf.secrets
  , user := overrideScalar acc.user conf.user
  , volumes := overrideKeyed (fun e => e.id) acc.volumes conf.volumes
  , metrics := overrideScalar acc.metrics conf.metrics
  , expectedState := overrideScalar acc.expectedState conf.expectedState }

/-- The all-absent configuration layer the fold starts from. -/
def emptyConfig : ContainerConfigData :=
  ⟨none, none, none, none, none, none, none, none, none, none, none, none, none,
   none, none, none, none, none, none, none, none, none, none, none, none, none,
   none, none, none, none, none, none, none, none, none⟩

/-- Modelled from the spec: the ordered layer list is merged left to right,
later layers overriding earlier ones. -/
def mergeConfigs (configs : List ContainerConfigData) : ContainerConfigData :=
  configs.foldl mergeLayer emptyConfig

/-! ### Merging the instance layer into the merged base -/

/-- Modelled from the spec (§3): the unresolved concrete form of a base
secret declaration — `encrypted: false`, `value: ""`, `publicKey: null`. -/
def unresolvedSecret (s : SecretKey) : SecretKeyValue :=
  { id := s.id, key := s.key, required := s.required
  , encrypted := false, value := "", publicKey := none }

/-- Modelled from the spec (§4.2): for each base secret identifier, an
instance secret with a matching identifier wins entirely; otherwise the
concrete secret is synthesized from the base `id`/`key`/`required` with the
unresolved defaults.  Instance-only secrets are appended at the end. -/
def mergeSecrets (instanceSecrets : List SecretKeyValue) (configSecrets : List SecretKey) :
    List SecretKeyValue :=
  (configSecrets.map fun cs =>
    match instanceSecrets.find? (fun iv => iv.id = cs.id) with
    | some iv => iv
    | none => unresolvedSecret cs)
  ++ instanceSecrets.filter fun iv => configSecrets.all fun cs => ¬ cs.id = iv.id

/-- Modelled from the spec (§4.2) and the module's tests: the instance's
labels/annotations merge per resource-kind partition — a partition the
instance defines replaces the base partition, a partition absent from the
instance passes through from the base; an instance without the field keeps
the base value. -/
def mergeMarker (base instanceM : Option Marker) : Option Marker :=
  match instanceM with
  | none => base
  | some im =>
    let bm := base.getD ⟨none, none, none⟩
    some { deployment := im.deployment <|> bm.deployment
         , ingress := im.ingress <|> bm.ingress
         , service := im.service <|> bm.service }

/-- Modelled from the spec (§4.2, §8) and the module's tests: the embedding
of `mergeConfigsWithConcreteConfig`.  The ordered layers are folded first;
then every field the instance defines wins over the merged base (the tests
pin whole-field override for the list fields), labels and annotations merge
per partition, and secrets are resolved by `mergeSecrets`. -/
def mergeConfigsWithConcreteConfig (configs : List ContainerConfigData)
    (concrete : ConcreteContainerConfigData) : ConcreteContainerConfigData :=
  let baseConfig := mergeConfigs configs
  { name := concrete.name <|> baseConfig.name
  , capabilities := concrete.capabilities <|> baseConfig.capabilities
  , deploymentStrategy := concrete.deploymentStrategy <|> baseConfig.deploymentStrategy
  , workingDirectory := concrete.workingDirectory <|> baseConfig.workingDirectory
  , expose := concrete.expose <|> baseConfig.expose
  , networkMode := concrete.networkMode <|> baseConfig.networkMode
  , proxyHeaders := concrete.proxyHeaders <|> baseConfig.proxyHeaders
  , restartPolicy := concrete.restartPolicy <|> baseConfig.restartPolicy
  , tty := concrete.tty <|> baseConfig.tty
  , useLoadBalancer := concrete.useLoadBalancer <|> baseConfig.useLoadBalancer
  , annotations := mergeMarker baseConfig.annotations concrete.annotations
  , labels := mergeMarker baseConfig.labels concrete.labels
  , args := concrete.args <|> baseConfig.args
  , commands := concrete.commands <|> baseConfig.commands
  , configContainer := concrete.configContainer <|> baseConfig.configContainer
  , customHeaders := concrete.customHeaders <|> baseConfig.customHeaders
  , dockerLabels := concrete.dockerLabels <|> baseConfig.dockerLabels
  , environment := concrete.environment <|> baseConfig.environment
  , extraLBAnnotations := concrete.extraLBAnnotations <|> baseConfig.extraLBAnnotations
  , healthCheckConfig := concrete.healthCheckConfig <|> baseConfig.healthCheckConfig
  , storageSet := concrete.storageSet <|> baseConfig.storageSet
  , storageId := concrete.storageId <|> baseConfig.storageId
  , storageConfig := concrete.storageConfig <|> baseConfig.storageConfig
  , routing := concrete.routing <|> baseConfig.routing
  , initContainers := concrete.initContainers <|> baseConfig.initContainers
  , logConfig := concrete.logConfig <|> baseConfig.logConfig
  , networks := concrete.networks <|> baseConfig.networks
  , portRanges := concrete.portRanges <|> baseConfig.portRanges
  , ports := concrete.ports <|> baseConfig.ports
  , resourceConfig := concrete.resourceConfig <|> baseConfig.resourceConfig
  , secrets := some (mergeSecrets (concrete.secrets.getD []) (baseConfig.secrets.getD []))
  , user := concrete.user <|> baseConfig.user
  , volumes := concrete.volumes <|> baseConfig.volumes
  , metrics := concrete.metrics <|> baseConfig.metrics
  , expectedState := concrete.expectedState <|> baseConfig.expectedState }

/-- The empty instance (`{}` in the tests): every field absent. -/
def emptyConcreteConfig : ConcreteContainerConfigData :=
  ⟨none, none, none, none, none, none, none, none, none, none, none, none, none,
   none, none, none, none, none, none, none, none, none, none, none, none, none,
   none, none, none, none, none, none, none, none, none⟩

/-- The concrete configuration the spec's merge identity law expects:
every field of `base` kept, every base secret downgraded to the unresolved
form. -/
def unresolvedConcrete (base : ContainerConfigData) : ConcreteContainerConfigData :=
  { name := base.name
  , capabilities := base.capabilities
  , deploymentStrategy := base.deploymentStrategy
  , workingDirectory := base.workingDirectory
  , expose := base.expose
  , networkMode := base.networkMode
  , proxyHeaders := base.proxyHeaders
  , restartPolicy := base.restartPolicy
  , tty := base.tty
  , useLoadBalancer := base.useLoadBalancer
  , annotations := base.annotations
  , labels := base.labels
  , args := base.args
  , commands := base.commands
  , configContainer := base.configContainer
  , customHeaders := base.customHeaders
  , dockerLabels := base.dockerLabels
  , environment := base.environment
  , extraLBAnnotations := base.extraLBAnnotations
  , healthCheckConfig := base.healthCheckConfig
  , storageSet := base.storageSet
  , storageId := base.storageId
  , storageConfig := base.storageConfig
  , routing := base.routing
  , initContainers := base.initContainers
  , logConfig := base.logConfig
  , networks := base.networks
  , portRanges := base.portRanges
  , ports := base.ports
  , resourceConfig := base.resourceConfig
  , secrets := some ((base.secrets.getD []).map unresolvedSecret)
  , user := base.user
  , volumes := base.volumes
  , metrics := base.metrics
  , expectedState := base.expectedState }

/-! ### Single-layer facts and the claim theorems for the merge engine -/

theorem overrideScalar_none {α : Type} (n : Option α) : overrideScalar none n = n := by
  cases n <;> rfl

theorem overrideKeyed_none {α : Type} (idOf : α → String) (n : Option (List α)) :
    overrideKeyed idOf none n = n := by
  cases n <;> rfl

theorem layerMergeMarker_none (n : Option Marker) : layerMergeMarker none n = n := by
  cases n <;> rfl

theorem layerMergeLogConfig_none (n : Option LogConfig) : layerMergeLogConfig none n = n := by
  cases n <;> rfl

/-- Folding a single layer gives back that layer. -/
theorem mergeConfigs_singleton (base : ContainerConfigData) : mergeConfigs [base] = base := by
  simp [mergeConfigs, mergeLayer, emptyConfig, overrideScalar_none, overrideKeyed_none,
    layerMergeMarker_none, layerMergeLogConfig_none]

/-- C1: merging a single base layer with the empty instance returns the
base in every field except `secrets`, where every base secret declaration
is kept but downgraded to the unresolved form `encrypted := false`,
`value := ""`, `publicKey := none` — no declaration is dropped. -/
theorem merge_identity_law (base : ContainerConfigData) :
    mergeConfigsWithConcreteConfig [base] emptyConcreteConfig = unresolvedConcrete base := by
  simp [mergeConfigsWithConcreteConfig, mergeConfigs_singleton, emptyConcreteConfig,
    unresolvedConcrete, mergeMarker, mergeSecrets, unresolvedSecret]

/-- C3: an instance defining only `ports`, the `labels.deployment`
partition and the `annotations.service` partition changes exactly those —
the overridden partitions take the instance entries, every other partition
passes through from the base, every other field keeps the base value, and
the secrets take the unresolved form. -/
theorem merge_partial_instance_law (base : ContainerConfigData) (ps : List Port)
    (ld sv : List UniqueKeyValue) :
    mergeConfigsWithConcreteConfig [base]
      { emptyConcreteConfig with
        ports := some ps
        labels := some ⟨some ld, none, none⟩
        annotations := some ⟨none, none, some sv⟩ } =
    { unresolvedConcrete base with
      ports := some ps
      labels := some ⟨some ld, (base.labels.getD ⟨none, none, none⟩).ingress,
        (base.labels.getD ⟨none, none, none⟩).service⟩
      annotations := some ⟨(base.annotations.getD ⟨none, none, none⟩).deployment,
        (base.annotations.getD ⟨none, none, none⟩).ingress, some sv⟩ } := by
  simp [mergeConfigsWithConcreteConfig, mergeConfigs_singleton, emptyConcreteConfig,
    unresolvedConcrete, mergeMarker, mergeSecrets, unresolvedSecret]

/-- C2: when the instance defines every field — including a secret entry
whose identifier matches the base layer's secret declaration and which
carries resolved material — the merge returns the instance exactly: every
instance-defined field, the fully resolved secret included, wins over the
base layer. -/
theorem merge_override_law (base : ContainerConfigData)
    (b : SecretKey) (i : SecretKeyValue)
    (hbs : base.secrets = some [b]) (hid : i.id = b.id)
    (n : String) (caps : List UniqueKeyValue) (ds wd ex nm : String)
    (ph : Bool) (rp : String) (tt ulb : Bool)
    (ad ai asv ld li ls : List UniqueKeyValue)
    (ar cm : List UniqueKey) (cc : ConfigContainer) (ch : List UniqueKey)
    (dl ev lba : List UniqueKeyValue) (hc : HealthCheckConfig)
    (ss : Bool) (sid : String) (sc : StorageConfig) (rt : Routing)
    (ic : List InitContainer) (lc : LogConfig) (nw : List UniqueKey)
    (pr : List PortRange) (po : List Port) (rc : ResourceConfig)
    (us : Int) (vo : List Volume) (me : MetricsData) (es : ExpectedStateData) :
    mergeConfigsWithConcreteConfig [base]
      ⟨some n, some caps, some ds, some wd, some ex, some nm, some ph, some rp,
       some tt, some ulb, some ⟨some ad, some ai, some asv⟩,
       some ⟨some ld, some li, some ls⟩, some ar, some cm, some cc, some ch,
       some dl, some ev, some lba, some hc, some ss, some sid, some sc, some rt,
       some ic, some lc, some nw, some pr, some po, some rc, some [i], some us,
       some vo, some me, some es⟩ =
      ⟨some n, some caps, some ds, some wd, some ex, some nm, some ph, some rp,
       some tt, some ulb, some ⟨some ad, some ai, some asv⟩,
       some ⟨some ld, some li, some ls⟩, some ar, some cm, some cc, some ch,
       some dl, some ev, some lba, some hc, some ss, some sid, some sc, some rt,
       some ic, some lc, some nw, some pr, some po, some rc, some [i], some us,
       some vo, some me, some es⟩ := by
  simp [mergeConfigsWithConcreteConfig, mergeConfigs_singleton, mergeMarker,
    mergeSecrets, hbs, hid]

/-- The base layer of the module's unit tests (`fullConfig`). -/
def testBaseConfig : ContainerConfigData :=
  { name := some "img"
  , capabilities := some []
  , deploymentStrategy := some "recreate"
  , workingDirectory := some "/app"
  , expose := some "expose"
  , networkMode := some "bridge"
  , proxyHeaders := some false
  , restartPolicy := some "no"
  , tty := some false
  , useLoadBalancer := some false
  , annotations := some
      ⟨some [⟨"annotations.deployment", "annotations.deployment", "annotations.deployment"⟩],
       some [⟨"annotations.ingress", "annotations.ingress", "annotations.ingress"⟩],
       some [⟨"annotations.service", "annotations.service", "annotations.service"⟩]⟩
  , labels := some
      ⟨some [⟨"labels.deployment", "labels.deployment", "labels.deployment"⟩],
       some [⟨"labels.ingress", "labels.ingress", "labels.ingress"⟩],
       some [⟨"labels.service", "labels.service", "labels.service"⟩]⟩
  , args := some [⟨"arg1", "arg1"⟩]
  , commands := some [⟨"command1", "command1"⟩]
  , configContainer := some ⟨"configCont", false, "configCont", "configCont"⟩
  , customHeaders := some [⟨"customHead", "customHead"⟩]
  , dockerLabels := some [⟨"dockerLabel1", "dockerLabel1", "dockerLabel1"⟩]
  , environment := some [⟨"env1", "env1", "env1"⟩]
  , extraLBAnnotations := some [⟨"lbAnn1", "lbAnn1", "lbAnn1"⟩]
  , healthCheckConfig := some ⟨"healthCheckConf", 1, "healthCheckConf", "healthCheckConf"⟩
  , storageSet := some true
  , storageId := some "storageId"
  , storageConfig := some ⟨"storageBucket", "storagePath"⟩
  , routing := some ⟨"domain", "path", true, "uploadLimit"⟩
  , initContainers := some
      [⟨"initCont1", [⟨"initCont1Args", "initCont1Args"⟩],
        [⟨"initCont1Command", "initCont1Command"⟩],
        [⟨"initCont1Env", "initCont1Env", "initCont1Env"⟩],
        "initCont1", "initCont1", false,
        [⟨"initCont1Vol1", "initCont1Vol1", "initCont1Vol1"⟩]⟩]
  , logConfig := some ⟨"awslogs", [⟨"logConfOps", "logConfOps", "logConfOps"⟩]⟩
  , networks := some [⟨"network1", "network1"⟩]
  , portRanges := some [⟨"portRange1", ⟨1, 2⟩, ⟨1, 2⟩⟩]
  , ports := some [⟨"port1", 1, 1⟩]
  , resourceConfig := some ⟨⟨"limitCpu", "limitMemory"⟩, ⟨"requestCpu", "requestMemory"⟩⟩
  , secrets := some [⟨"secret1", "secret1", false⟩]
  , user := some 1
  , volumes := some [⟨"vol1", "vol1", "vol1", "vol1", "vol1", "mem"⟩]
  , metrics := none
  , expectedState := none }

/-- The instance layer of the module's unit tests (`fullConcreteConfig`).
The tests leave `metrics` and `expectedState` undefined; they are filled
here because the override law quantifies over instances that define every
field. -/
def testConcreteConfig : ConcreteContainerConfigData :=
  { name := some "instance.img"
  , capabilities := some []
  , deploymentStrategy := some "recreate"
  , workingDirectory := some "/app"
  , expose := some "exposeWithTls"
  , networkMode := some "host"
  , proxyHeaders := some true
  , restartPolicy := some "onFailure"
  , tty := some true
  , useLoadBalancer := some true
  , annotations := some
      ⟨some [⟨"instance.annotations.deployment", "instance.annotations.deployment",
        "instance.annotations.deployment"⟩],
       some [⟨"instance.annotations.ingress", "instance.annotations.ingress",
        "instance.annotations.ingress"⟩],
       some [⟨"instance.annotations.service", "instance.annotations.service",
        "instance.annotations.service"⟩]⟩
  , labels := some
      ⟨some [⟨"instance.labels.deployment", "instance.labels.deployment",
        "instance.labels.deployment"⟩],
       some [⟨"instance.labels.ingress", "instance.labels.ingress",
        "instance.labels.ingress"⟩],
       some [⟨"instance.labels.service", "instance.labels.service",
        "instance.labels.service"⟩]⟩
  , args := some [⟨"instance.arg1", "instance.arg1"⟩]
  , commands := some [⟨"instance.command1", "instance.command1"⟩]
  , configContainer := some
      ⟨"instance.configCont", true, "instance.configCont", "instance.configCont"⟩
  , customHeaders := some [⟨"instance.customHead", "instance.customHead"⟩]
  , dockerLabels := some
      [⟨"instance.dockerLabel1", "instance.dockerLabel1", "instance.dockerLabel1"⟩]
  , environment := some [⟨"instance.env1", "instance.env1", "instance.env1"⟩]
  , extraLBAnnotations := some [⟨"instance.lbAnn1", "instance.lbAnn1", "instance.lbAnn1"⟩]
  , healthCheckConfig := some
      ⟨"instance.healthCheckConf", 1, "instance.healthCheckConf", "instance.healthCheckConf"⟩
  , storageSet := some true
  , storageId := some "instance.storageId"
  , storageConfig := some ⟨"instance.storageBucket", "instance.storagePath"⟩
  , routing := some ⟨"instance.domain", "instance.path", true, "instance.uploadLimit"⟩
  , initContainers := some
      [⟨"instance.initCont1", [⟨"instance.initCont1Args", "instance.initCont1Args"⟩],
        [⟨"instance.initCont1Command", "instance.initCont1Command"⟩],
        [⟨"instance.initCont1Env", "instance.initCont1Env", "instance.initCont1Env"⟩],
        "instance.initCont1", "instance.initCont1", true,
        [⟨"instance.initCont1Vol1", "instance.initCont1Vol1", "instance.initCont1Vol1"⟩]⟩]
  , logConfig := some
      ⟨"gcplogs", [⟨"instance.logConfOps", "instance.logConfOps", "instance.logConfOps"⟩]⟩
  , networks := some [⟨"instance.network1", "instance.network1"⟩]
  , portRanges := some [⟨"instance.portRange1", ⟨10, 20⟩, ⟨10, 20⟩⟩]
  , ports := some [⟨"instance.port1", 10, 10⟩]
  , resourceConfig := some
      ⟨⟨"instance.limitCpu", "instance.limitMemory"⟩,
       ⟨"instance.requestCpu", "instance.requestMemory"⟩⟩
  , secrets := some
      [⟨"secret1", "instance.secret1", false, true, "instance.secret1.publicKey",
        some "instance.secret1.publicKey"⟩]
  , user := some 1
  , volumes := some
      [⟨"instance.vol1", "instance.vol1", "instance.vol1", "instance.vol1",
        "instance.vol1", "rwo"⟩]
  , metrics := some ⟨"metrics"⟩
  , expectedState := some ⟨"expectedState"⟩ }

theorem merge_override_law_witness :
    mergeConfigsWithConcreteConfig [testBaseConfig] testConcreteConfig = testConcreteConfig :=
  merge_override_law testBaseConfig ⟨"secret1", "secret1", false⟩
    ⟨"secret1", "instance.secret1", false, true, "instance.secret1.publicKey",
      some "instance.secret1.publicKey"⟩
    rfl rfl
    "instance.img" [] "recreate" "/app" "exposeWithTls" "host" true "onFailure" true true
    [⟨"instance.annotations.deployment", "instance.annotations.deployment",
      "instance.annotations.deployment"⟩]
    [⟨"instance.annotations.ingress", "instance.annotations.ingress",
      "instance.annotations.ingress"⟩]
    [⟨"instance.annotations.service", "instance.annotations.service",
      "instance.annotations.service"⟩]
    [⟨"instance.labels.deployment", "instance.labels.deployment",
      "instance.labels.deployment"⟩]
    [⟨"instance.labels.ingress", "instance.labels.ingress", "instance.labels.ingress"⟩]
    [⟨"instance.labels.service", "instance.labels.service", "instance.labels.service"⟩]
    [⟨"instance.arg1", "instance.arg1"⟩]
    [⟨"instance.command1", "instance.command1"⟩]
    ⟨"instance.configCont", true, "instance.configCont", "instance.configCont"⟩
    [⟨"instance.customHead", "instance.customHead"⟩]
    [⟨"instance.dockerLabel1", "instance.dockerLabel1", "instance.dockerLabel1"⟩]
    [⟨"instance.env1", "instance.env1", "instance.env1"⟩]
    [⟨"instance.lbAnn1", "instance.lbAnn1", "instance.lbAnn1"⟩]
    ⟨"instance.healthCheckConf", 1, "instance.healthCheckConf", "instance.healthCheckConf"⟩
    true "instance.storageId" ⟨"instance.storageBucket", "instance.storagePath"⟩
    ⟨"instance.domain", "instance.path", true, "instance.uploadLimit"⟩
    [⟨"instance.initCont1", [⟨"instance.initCont1Args", "instance.initCont1Args"⟩],
      [⟨"instance.initCont1Command", "instance.initCont1Command"⟩],
      [⟨"instance.initCont1Env", "instance.initCont1Env", "instance.initCont1Env"⟩],
      "instance.initCont1", "instance.initCont1", true,
      [⟨"instance.initCont1Vol1", "instance.initCont1Vol1", "instance.initCont1Vol1"⟩]⟩]
    ⟨"gcplogs", [⟨"instance.logConfOps", "instance.logConfOps", "instance.logConfOps"⟩]⟩
    [⟨"instance.network1", "instance.network1"⟩]
    [⟨"instance.portRange1", ⟨10, 20⟩, ⟨10, 20⟩⟩]
    [⟨"instance.port1", 10, 10⟩]
    ⟨⟨"instance.limitCpu", "instance.limitMemory"⟩,
     ⟨"instance.requestCpu", "instance.requestMemory"⟩⟩
    1
    [⟨"instance.vol1", "instance.vol1", "instance.vol1", "instance.vol1",
      "instance.vol1", "rwo"⟩]
    ⟨"metrics"⟩ ⟨"expectedState"⟩
